import Mathlib

/-!
Shallow embedding of the Game Boy emulator core (files `src/mmu.rs`,
`src/cpu.rs`) and proofs about its memory dispatch, banking, timer,
interrupt and rendering behaviour.

Conventions of the embedding:
* `u8` / `u16` / `usize` values are `Nat`s; wrapping arithmetic of the
  release build is written out explicitly as `% 256`, `% 65536`, `% 2^64`.
* `i8` values are `Int`s; `wrapI8` is wrapping `i8` arithmetic and `toI8` /
  `toU8` / `toU16` are the Rust `as` casts.
* The byte array `memory: [u8; 0x10000]` and the other arrays are total
  functions `Nat → Nat`; `setMem` is a single-cell store.
* Rust `match` arms guarded by ranges become `if`-chains in source order.
-/

namespace GB

/-- Store one cell of a function-represented byte array. -/
def setMem (f : Nat → Nat) (a v : Nat) : Nat → Nat :=
  fun x => if x = a then v else f x

/-- Rust `a..=b` over naturals (empty when `a > b`). -/
def natRangeInclusive (a b : Nat) : List Nat :=
  if a ≤ b then (List.range (b + 1 - a)).map (a + ·) else []

/-- Rust `a..=b` over `i8`-style integers (empty when `a > b`);
`7..=0` in `render_sprites` is the empty range. -/
def intRangeInclusive (a b : Int) : List Int :=
  if a ≤ b then (List.range (b - a + 1).toNat).map (fun j => a + j) else []

/-- Reinterpret a `u8` value as `i8` (Rust `as i8`). -/
def toI8 (n : Nat) : Int :=
  if n % 256 < 128 then (n % 256 : Int) else (n % 256 : Int) - 256

/-- Wrapping `i8` arithmetic result (two's complement into `[-128,127]`). -/
def wrapI8 (i : Int) : Int :=
  (i + 128) % 256 - 128

/-- Rust `as u8` on a signed value. -/
def toU8 (i : Int) : Nat :=
  ((i % 256 + 256) % 256).toNat

/-- Rust `as u16` on a signed value (sign-extend then reinterpret). -/
def toU16 (i : Int) : Nat :=
  ((i % 65536 + 65536) % 65536).toNat

/-- Release-mode shift amount for a `u8 >> i8` shift: the right operand is
converted to `u32` (wrapping) and masked by the bit width minus one. -/
def shiftAmtU8 (i : Int) : Nat :=
  (((i % 4294967296 + 4294967296) % 4294967296) % 8).toNat

/-- Embeds `u8::checked_shl`: `None` when the shift is not below the bit width.
In `do_dma_transer` the shift is 8, so the result there is always `None`. -/
def checked_shl_u8 (d shift : Nat) : Option Nat :=
  if shift < 8 then some ((d <<< shift) % 256) else none

/-- Embeds `u16::checked_shr`: `None` when the shift is not below the bit width. -/
def checked_shr_u16 (w shift : Nat) : Option Nat :=
  if shift < 16 then some (w >>> shift) else none

/-- State of `struct Mmu` (`src/mmu.rs`).  `memory` is the 64KB array,
`cartridge` the `game::Game` collaborator (its `read_catridge_data`). -/
structure Mmu where
  memory : Nat → Nat
  joypad : Nat
  mbc1 : Bool
  mbc2 : Bool
  rom_banking : Bool
  current_rom_bank : Nat
  ram_banks : Nat → Nat
  current_ram_bank : Nat
  enable_ram : Bool
  timer_counter : Nat
  cartridge : Nat → Nat

/-- Embeds `Mmu::get_joypad_state`. -/
def get_joypad_state (m : Mmu) : Nat :=
  let result := m.memory 0xFF00 ^^^ 0xFF
  if 0 < result &&& 32 then
    let top_nibble := (m.joypad >>> 4) ||| 0xF0
    result &&& top_nibble
  else if 0 < result &&& 16 then
    let bottom_nibble := (m.joypad &&& 0xF) ||| 0xF0
    result &&& bottom_nibble
  else result

/-- Embeds `Mmu::do_read_cartridge_data`. -/
def do_read_cartridge_data (m : Mmu) (address : Nat) : Nat :=
  m.cartridge ((address - 0x4000) + m.current_rom_bank * 0x4000)

/-- Embeds `Mmu::do_read_ram_bank`. -/
def do_read_ram_bank (m : Mmu) (address : Nat) : Nat :=
  m.ram_banks ((address - 0xA000) + m.current_ram_bank * 0x2000)

/-- Embeds `Mmu::read_memory`: dispatch in the source's arm order. -/
def read_memory (m : Mmu) (address : Nat) : Nat :=
  if address = 0xFF00 then get_joypad_state m
  else if 0x4000 ≤ address ∧ address ≤ 0x7FFF then do_read_cartridge_data m address
  else if 0xA000 ≤ address ∧ address ≤ 0xBFFF then do_read_ram_bank m address
  else m.memory address

/-- Embeds `Mmu::do_write_data`. -/
def do_write_data (m : Mmu) (address data : Nat) : Mmu :=
  { m with memory := setMem m.memory address data }

/-- Embeds `Mmu::do_echo_write`: write both the work-RAM shadow and the echo byte. -/
def do_echo_write (m : Mmu) (address data : Nat) : Mmu :=
  let echo_address := address - 0x2000
  do_write_data (do_write_data m echo_address data) address data

/-- Embeds `Mmu::do_enable_ram_banking` (body only runs for MBC2; also keeps the
source's `address & 8 == 1` test, which can never hold). -/
def do_enable_ram_banking (m : Mmu) (address data : Nat) : Mmu :=
  if m.mbc2 = true then
    if address &&& 8 = 1 then m
    else
      let lower_nibble := data &&& 0xF
      if lower_nibble = 0xA then { m with enable_ram := true }
      else if lower_nibble = 0 then { m with enable_ram := false }
      else m
  else m

/-- Embeds `Mmu::do_rom_lo_bank_change`.  The source tests `self.mbc2` in both the
`if` and the `else if`, so the second (MBC1) branch is unreachable; it is
transcribed as written. -/
def do_rom_lo_bank_change (m : Mmu) (data : Nat) : Mmu :=
  if m.mbc2 = true then
    let b := data &&& 0xF
    { m with current_rom_bank := if b = 0 then b + 1 else b }
  else if m.mbc2 = true then
    let lower_five_bits := data &&& 31
    let b := (m.current_rom_bank &&& 224) ||| lower_five_bits
    { m with current_rom_bank := if b = 0 then b + 1 else b }
  else m

/-- Embeds `Mmu::do_rom_hi_bank_change`. -/
def do_rom_hi_bank_change (m : Mmu) (data : Nat) : Mmu :=
  let b := (m.current_rom_bank &&& 31) ||| (data &&& 224)
  { m with current_rom_bank := if b = 0 then b + 1 else b }

/-- Embeds `Mmu::do_ram_bank_change`. -/
def do_ram_bank_change (m : Mmu) (data : Nat) : Mmu :=
  { m with current_ram_bank := data &&& 0x2 }

/-- Embeds `Mmu::do_change_rom_ram_mode`. -/
def do_change_rom_ram_mode (m : Mmu) (data : Nat) : Mmu :=
  if m.mbc1 = true then
    let least_significant_bit := data &&& 0x1
    if least_significant_bit = 0 then { m with rom_banking := true, current_ram_bank := 0 }
    else if least_significant_bit = 1 then { m with rom_banking := false }
    else m
  else m

/-- Embeds `Mmu::do_rom_or_ram_bank_change`. -/
def do_rom_or_ram_bank_change (m : Mmu) (data : Nat) : Mmu :=
  if m.mbc1 = true then
    if m.rom_banking = true then do_rom_hi_bank_change m data
    else do_ram_bank_change m data
  else m

/-- Embeds `Mmu::do_handle_banking`: sub-range dispatch for writes below 0x8000. -/
def do_handle_banking (m : Mmu) (address data : Nat) : Mmu :=
  if address < 0x2000 then do_enable_ram_banking m address data
  else if 0x2000 ≤ address ∧ address < 0x4000 then do_rom_lo_bank_change m data
  else if 0x4000 ≤ address ∧ address < 0x6000 then do_rom_or_ram_bank_change m data
  else if 0x6000 ≤ address ∧ address < 0x8000 then do_change_rom_ram_mode m data
  else m

/-- Embeds `Mmu::do_handle_ram_banks`. -/
def do_handle_ram_banks (m : Mmu) (address data : Nat) : Mmu :=
  if m.enable_ram = true then
    { m with ram_banks := setMem m.ram_banks ((address - 0xA000) + m.current_ram_bank * 0x2000) data }
  else m

/-- Embeds `Mmu::get_clock_frequency`. -/
def get_clock_frequency (m : Mmu) : Nat :=
  read_memory m 0xFF07 &&& 0x3

/-- Embeds `Mmu::set_clock_frequency`. -/
def set_clock_frequency (m : Mmu) : Mmu :=
  let frequency := get_clock_frequency m
  if frequency = 0 then { m with timer_counter := 1024 }
  else if frequency = 1 then { m with timer_counter := 16 }
  else if frequency = 2 then { m with timer_counter := 64 }
  else if frequency = 3 then { m with timer_counter := 256 }
  else m

/-- Embeds `Mmu::decrease_timer_counter` (wrapping `usize` subtraction). -/
def decrease_timer_counter (m : Mmu) (cycles : Nat) : Mmu :=
  { m with timer_counter := (m.timer_counter + (2 ^ 64 - cycles % 2 ^ 64)) % 2 ^ 64 }

/-- Embeds `Mmu::increment_divider_register` (wrapping `u8` increment of 0xFF04). -/
def increment_divider_register (m : Mmu) : Mmu :=
  { m with memory := setMem m.memory 0xFF04 ((m.memory 0xFF04 + 1) % 256) }

/-- Embeds `Mmu::do_handle_timer_controller`. -/
def do_handle_timer_controller (m : Mmu) (data : Nat) : Mmu :=
  let current_frequency := get_clock_frequency m
  let m := { m with memory := setMem m.memory 0xFF07 data }
  let new_frequency := get_clock_frequency m
  if current_frequency ≠ new_frequency then set_clock_frequency m else m

/-- The body of `Mmu::do_dma_transer`, parameterised by the write-back used
for the 160 OAM stores (the Rust code calls `write_memory` recursively; the
targets `0xFE00..=0xFE9F` never hit the DMA arm again, see
`write_dispatch_dma_irrelevant`).  The source address comes from
`data.checked_shl(8)` on a `u8`, which is always `None`, i.e. `0`. -/
def do_dma_transer_with (write : Mmu → Nat → Nat → Mmu) (m : Mmu) (data : Nat) : Mmu :=
  let source_address := (checked_shl_u8 data 8).getD 0
  (natRangeInclusive 0xFE00 0xFE9F).foldl
    (fun acc i => write acc i (read_memory acc (source_address + (i - 0xFE00)))) m

/-- Embeds `Mmu::write_memory`'s arm dispatch, parameterised by the DMA handler so
that the (depth-2) recursion of the source can be tied off explicitly. -/
def write_dispatch (dma : Mmu → Nat → Mmu) (m : Mmu) (address data : Nat) : Mmu :=
  if address < 0x8000 then do_handle_banking m address data
  else if 0xA000 ≤ address ∧ address < 0xC000 then do_handle_ram_banks m address data
  else if address = 0xFF04 then { m with memory := setMem m.memory address 0 }
  else if address = 0xFF07 then do_handle_timer_controller m data
  else if address = 0xFF44 then { m with memory := setMem m.memory address 0 }
  else if address = 0xFF46 then dma m data
  else if 0xFEA0 ≤ address ∧ address < 0xFEFF then m
  else if 0xE000 ≤ address ∧ address < 0xFDFF then do_echo_write m address data
  else do_write_data m address data

/-- Embeds `Mmu::do_dma_transer`; its 160 stores go through the full write
dispatch (with a vacuous nested-DMA handler, which is never reached). -/
def do_dma_transer (m : Mmu) (data : Nat) : Mmu :=
  do_dma_transer_with (fun acc a d => write_dispatch (fun acc2 _ => acc2) acc a d) m data

/-- Embeds `Mmu::write_memory`. -/
def write_memory (m : Mmu) (address data : Nat) : Mmu :=
  write_dispatch do_dma_transer m address data

/-- The I/O bytes preset by `Mmu::new` (addresses at or above 0x8000;
entries not listed are zero, as is the whole rest of the array). -/
def initIOByte (a : Nat) : Nat :=
  if a = 0xFF10 then 0x80 else if a = 0xFF11 then 0xBF
  else if a = 0xFF12 then 0xF3 else if a = 0xFF14 then 0xBF
  else if a = 0xFF16 then 0x3F else if a = 0xFF19 then 0xBF
  else if a = 0xFF1A then 0x7F else if a = 0xFF1B then 0xFF
  else if a = 0xFF1C then 0x9F else if a = 0xFF1E then 0xBF
  else if a = 0xFF20 then 0xFF else if a = 0xFF23 then 0xBF
  else if a = 0xFF24 then 0x77 else if a = 0xFF25 then 0xF3
  else if a = 0xFF26 then 0xF1 else if a = 0xFF40 then 0x91
  else if a = 0xFF47 then 0xFC else if a = 0xFF48 then 0xFF
  else if a = 0xFF49 then 0xFF else 0

/-- The memory array built by `Mmu::new`: the I/O presets, then cartridge
bytes copied over `0x0000..0x7FFF`. -/
def mmuInitMemory (cart : Nat → Nat) : Nat → Nat :=
  fun a => if a < 0x8000 then cart a else initIOByte a

/-- Embeds `Mmu::new` applied to `Game::new` (whose `read_catridge_data` returns 0
for every address). -/
def mmuInit : Mmu :=
  { memory := mmuInitMemory (fun _ => 0)
    joypad := 7
    mbc1 := false
    mbc2 := false
    rom_banking := true
    current_rom_bank := 1
    ram_banks := fun _ => 0
    current_ram_bank := 0
    enable_ram := false
    timer_counter := 1024
    cartridge := fun _ => 0 }

/-- State of `struct Cpu` (`src/cpu.rs`).  `program_counter` and
`stack_pointer` are `u16` values, `screen_data` is the flat
`160 * 144 * 3`-byte pixel buffer.  The register-pair table is not
referenced by any of the operations embedded here. -/
structure Cpu where
  mmu : Mmu
  program_counter : Nat
  stack_pointer : Nat
  divider_counter : Nat
  interrupt_master : Bool
  scanline_counter : Nat
  screen_data : Nat → Nat
  halted : Bool

/-- Embeds `Cpu::new` applied to `Game::new` (screen buffer all zero). -/
def cpuInit : Cpu :=
  { mmu := mmuInit
    program_counter := 0x100
    stack_pointer := 0xFFFE
    divider_counter := 0
    interrupt_master := true
    scanline_counter := 456
    screen_data := fun _ => 0
    halted := false }

/-- Embeds `Cpu::push_word_to_stack`: decrement `sp`, store the high byte, then
decrement again and store the low byte (wrapping `u16` decrements). -/
def push_word_to_stack (c : Cpu) (word : Nat) : Cpu :=
  let hi := ((checked_shr_u16 word 8).getD 0) % 256
  let lo := word &&& 0xFF
  let sp1 := (c.stack_pointer + 65536 - 1) % 65536
  let c := { c with stack_pointer := sp1, mmu := write_memory c.mmu sp1 hi }
  let sp2 := (c.stack_pointer + 65536 - 1) % 65536
  { c with stack_pointer := sp2, mmu := write_memory c.mmu sp2 lo }

/-- Embeds `Cpu::request_interrupt`: OR the kind's bit into 0xFF0F (the `match`
falls back to the register's own value for any other bit argument). -/
def request_interrupt (c : Cpu) (bit : Nat) : Cpu :=
  let v := read_memory c.mmu 0xFF0F
  let v := v ||| (if bit = 0 then 1 else if bit = 1 then 2
                  else if bit = 2 then 4 else if bit = 4 then 16 else v)
  { c with mmu := write_memory c.mmu 0xFF0F v }

/-- Embeds `Cpu::check_interrupt_bit` (bit 3 always reports `false`). -/
def check_interrupt_bit (bit interrupt_register_value : Nat) : Bool :=
  if bit = 0 then decide (0 < 1 &&& interrupt_register_value)
  else if bit = 1 then decide (0 < 2 &&& interrupt_register_value)
  else if bit = 2 then decide (0 < 4 &&& interrupt_register_value)
  else if bit = 4 then decide (0 < 16 &&& interrupt_register_value)
  else false

/-- Embeds `Cpu::service_interrupt`: clear the master flag, XOR the request bit
off in 0xFF0F, push the current program counter, jump to the vector. -/
def service_interrupt (c : Cpu) (bit : Nat) : Cpu :=
  let c := { c with interrupt_master := false }
  let v := read_memory c.mmu 0xFF0F
  let v := v ^^^ (if bit = 0 then 1 else if bit = 1 then 2
                  else if bit = 2 then 4 else if bit = 4 then 16 else v)
  let c := { c with mmu := write_memory c.mmu 0xFF0F v }
  let c := push_word_to_stack c c.program_counter
  { c with program_counter :=
      if bit = 0 then 0x40 else if bit = 1 then 0x48
      else if bit = 2 then 0x50 else if bit = 4 then 0x60
      else c.program_counter }

/-- Embeds `Cpu::do_interrupts`: when the master flag is set and any request bit
is set, loop `i` over `0..5` servicing every bit that is requested and
enabled in the request/enable values read once before the loop. -/
def do_interrupts (c : Cpu) : Cpu :=
  if c.interrupt_master = true then
    let interrupt_request_value := read_memory c.mmu 0xFF0F
    let interrupt_enabled_value := read_memory c.mmu 0xFFFF
    if 0 < interrupt_request_value then
      (List.range 5).foldl (fun acc i =>
        if check_interrupt_bit i interrupt_request_value = true then
          if check_interrupt_bit i interrupt_enabled_value = true then
            service_interrupt acc i
          else acc
        else acc) c
    else c
  else c

/-- Embeds `Cpu::do_divider_register`: wrapping `u16` accumulation; at 255 or
more, reset the accumulator and bump the divider register. -/
def do_divider_register (c : Cpu) (cycles : Nat) : Cpu :=
  let dc := (c.divider_counter + cycles) % 65536
  if 255 ≤ dc then
    { c with divider_counter := 0, mmu := increment_divider_register c.mmu }
  else { c with divider_counter := dc }

/-- Embeds `Cpu::is_clock_enabled` (bit 2 of the timer controller). -/
def is_clock_enabled (c : Cpu) : Bool :=
  decide (0 < read_memory c.mmu 0xFF07 &&& 8)

/-- The timer half of `Cpu::update_timers` (the `if self.is_clock_enabled()`
block): decrement the reload counter and, at zero, reload the frequency and
bump or overflow the timer register at 0xFF05. -/
def update_timers_clock (c : Cpu) (cycles : Nat) : Cpu :=
  if is_clock_enabled c = true then
    let c := { c with mmu := decrease_timer_counter c.mmu cycles }
    if c.mmu.timer_counter = 0 then
      let c := { c with mmu := set_clock_frequency c.mmu }
      if read_memory c.mmu 0xFF05 = 255 then
        let c := { c with mmu := write_memory c.mmu 0xFF05 (read_memory c.mmu 0xFF06) }
        request_interrupt c 2
      else
        { c with mmu := write_memory c.mmu 0xFF05 ((read_memory c.mmu 0xFF05 + 1) % 256) }
    else c
  else c

/-- Embeds `Cpu::update_timers`: the divider always advances (with the cycle count
cast to `u16`); the timer half runs only when the clock is enabled. -/
def update_timers (c : Cpu) (cycles : Nat) : Cpu :=
  update_timers_clock (do_divider_register c (cycles % 65536)) cycles

/-- Embeds `Cpu::is_lcd_enabled` (bit 7 of LCD control 0xFF40). -/
def is_lcd_enabled (c : Cpu) : Bool :=
  decide (0 < read_memory c.mmu 0xFF40 &&& 128)

/-- Modelled from the spec: `Mmu::reset_scanline_value` is called from
`src/cpu.rs` but not defined in the sources; per §4.1(e) of the spec the
active-scanline byte 0xFF44 resets to zero (bypassing `write_memory`,
which would do the same for this address). -/
def reset_scanline_value (m : Mmu) : Mmu :=
  { m with memory := setMem m.memory 0xFF44 0 }

/-- Embeds `Cpu::set_lcd_status`: pin mode 1 when the LCD is off; otherwise pick
the mode from the scanline position (boundaries `458 - 80` and
`458 - 80 - 172` as in the source), fire the mode-change interrupt, then
handle the coincidence flag, and store the status byte. -/
def set_lcd_status (c : Cpu) : Cpu :=
  let lcd_status := read_memory c.mmu 0xFF41
  if is_lcd_enabled c = false then
    let c := { c with scanline_counter := 456, mmu := reset_scanline_value c.mmu }
    let s := (lcd_status &&& 252) ||| 1
    { c with mmu := write_memory c.mmu 0xFF41 s }
  else
    let current_scanline := read_memory c.mmu 0xFF44
    let current_mode := lcd_status &&& 0x3
    let msr : Nat × Nat × Bool :=
      if 144 ≤ current_scanline then
        let s := (lcd_status ||| 1) &&& 253
        (0, s, decide (0 < s &&& 16))
      else
        let mode_2_bounds := 458 - 80
        let mode_3_bounds := mode_2_bounds - 172
        if mode_2_bounds ≤ c.scanline_counter then
          let s := (lcd_status &&& 254) ||| 2
          (2, s, decide (0 < s &&& 32))
        else if mode_3_bounds ≤ c.scanline_counter then
          (3, lcd_status ||| 3, false)
        else
          let s := lcd_status &&& 252
          (0, s, decide (0 < s &&& 8))
    let mode := msr.1
    let s := msr.2.1
    let requested_interrupt := msr.2.2
    let c := if requested_interrupt = true ∧ mode ≠ current_mode
             then request_interrupt c 1 else c
    if current_scanline = read_memory c.mmu 0xFF45 then
      let s := s ||| 4
      let c := if 0 < s &&& 64 then request_interrupt c 1 else c
      { c with mmu := write_memory c.mmu 0xFF41 s }
    else
      let s := s &&& 251
      { c with mmu := write_memory c.mmu 0xFF41 s }

/-- Embeds `Cpu::get_color`: resolve a 2-bit colour id through the palette byte
to one of the four shade strings. -/
def get_color (c : Cpu) (color_num pallette_addr : Nat) : String :=
  let pallette := read_memory c.mmu pallette_addr
  let hl : Nat × Nat :=
    if color_num = 0 then (1, 0)
    else if color_num = 1 then (3, 2)
    else if color_num = 2 then (5, 4)
    else if color_num = 3 then (7, 6)
    else (0, 0)
  let color := (((pallette >>> hl.1) &&& 1) <<< 1) ||| ((pallette >>> hl.2) &&& 1)
  if color = 1 then "light_gray"
  else if color = 2 then "dark_gray"
  else if color = 3 then "black"
  else "white"

/-- The RGB triple chosen by the shade-string comparisons in both render
routines (unmatched `black` leaves the zero-initialised channels). -/
def shadeRGB (color : String) : Nat × Nat × Nat :=
  if color = "white" then (255, 255, 255)
  else if color = "dark_gray" then (0xCC, 0xCC, 0xCC)
  else if color = "light_gray" then (0x77, 0x77, 0x77)
  else (0, 0, 0)

/-- The body of the `for pixel in 0..160` loop of `Cpu::render_tiles`.
All loop-invariant values are passed in; only the screen buffer is
threaded.  The three store indices are the source's `u8` products
`(pixel*160 + finaly) * 1 / 2 / 3`, wrapping mod 256. -/
def render_tiles_pixel (c : Cpu) (using_window unsigned : Bool)
    (scroll_x window_x y_pos tile_data background_memory tile_row : Nat)
    (screen : Nat → Nat) (pixel : Nat) : Nat → Nat :=
  let x_pos := (pixel + scroll_x) % 256
  let x_pos := if using_window = true then
                 (if window_x ≤ pixel then pixel - window_x else x_pos)
               else x_pos
  let tile_col := x_pos / 8
  let tile_address := background_memory + tile_row + tile_col
  let tile_num := read_memory c.mmu tile_address
  let signed_tile_num := tile_num
  let tile_location := if unsigned = true then tile_data + tile_num * 16
                       else tile_data + (signed_tile_num + 128) * 16
  let line := (y_pos % 8) * 2
  let data_1 := read_memory c.mmu (tile_location + line)
  let data_2 := read_memory c.mmu (tile_location + line + 1)
  let color_bit := 7 - (x_pos % 8)
  let color_num := (((data_2 >>> color_bit) &&& 1) <<< 1) ||| ((data_1 >>> color_bit) &&& 1)
  let color := get_color c color_num 0xFF47
  let rgb := shadeRGB color
  let finaly := read_memory c.mmu 0xFF44
  if finaly < 0 ∨ 143 < finaly ∨ pixel < 0 ∨ 159 < pixel then screen
  else
    let a := ((pixel * 160) % 256 + finaly) % 256
    let screen := setMem screen ((a * 1) % 256) rgb.1
    let screen := setMem screen ((a * 2) % 256) rgb.2.1
    setMem screen ((a * 3) % 256) rgb.2.2

/-- Embeds `Cpu::render_tiles`: resolve scroll/window/tile-region selectors, then
run the 160-pixel loop over the screen buffer. -/
def render_tiles (c : Cpu) (lcd_control : Nat) : Cpu :=
  let scroll_y := read_memory c.mmu 0xFF42
  let scroll_x := read_memory c.mmu 0xFF43
  let window_y := read_memory c.mmu 0xFF4A
  let window_x := (read_memory c.mmu 0xFF4B + 256 - 7) % 256
  let using_window := if 0 < lcd_control &&& 32 then
                        decide (window_y ≤ read_memory c.mmu 0xFF44)
                      else false
  let td : Nat × Bool := if 0 < lcd_control &&& 16 then (0x8000, true) else (0x8800, false)
  let tile_data := td.1
  let unsigned := td.2
  let background_memory :=
    if using_window = true then
      (if 0 < lcd_control &&& 64 then 0x9C00 else 0x9800)
    else
      (if 0 < lcd_control &&& 8 then 0x9C00 else 0x9800)
  let y_pos := if using_window = true then
                 (read_memory c.mmu 0xFF44 + 256 - window_y) % 256
               else (scroll_y + read_memory c.mmu 0xFF44) % 256
  let tile_row := (y_pos / 8) * 32
  let screen := (List.range 160).foldl
    (render_tiles_pixel c using_window unsigned scroll_x window_x y_pos
      tile_data background_memory tile_row) c.screen_data
  { c with screen_data := screen }

/-- The body of the (empty) `for tile_pixel in 7..=0` loop of
`Cpu::render_sprites`, one step per `tile_pixel : i8`. -/
def render_sprites_pixel (c : Cpu) (x_flip : Bool) (data_1 data_2 x_pos current_scanline : Nat)
    (screen : Nat → Nat) (tile_pixel : Int) : Nat → Nat :=
  let color_bit := tile_pixel
  let color_bit := if x_flip = true then wrapI8 (wrapI8 (color_bit - 7) * (-1)) else color_bit
  let color_num := (((data_2 >>> shiftAmtU8 color_bit) &&& 1) <<< 1) |||
                   ((data_1 >>> shiftAmtU8 color_bit) &&& 1)
  let color := get_color c color_num 0xFF47
  let rgb := shadeRGB color
  let x_pix := wrapI8 (0 - tile_pixel)
  let x_pix := wrapI8 (x_pix + 7)
  let pixel := toU8 (wrapI8 (toI8 x_pos + x_pix))
  if current_scanline < 0 ∨ 143 < current_scanline ∨ pixel < 0 ∨ 159 < pixel then screen
  else
    let a := ((pixel * 160) % 256 + current_scanline) % 256
    let screen := setMem screen ((a * 1) % 256) rgb.1
    let screen := setMem screen ((a * 2) % 256) rgb.2.1
    setMem screen ((a * 3) % 256) rgb.2.2

/-- The body of the `for sprite in 0..40` loop of `Cpu::render_sprites`:
read the sprite's attribute bytes and, if its vertical extent meets the
active scanline, run the pixel loop (whose Rust range `7..=0` is empty). -/
def render_sprites_sprite (c : Cpu) (is_8_by_16 : Bool)
    (screen : Nat → Nat) (sprite : Nat) : Nat → Nat :=
  let index := sprite * 4
  let y_pos := (read_memory c.mmu (0xFE00 + index) + 256 - 16) % 256
  let x_pos := (read_memory c.mmu (0xFE00 + index + 1) + 256 - 8) % 256
  let tile_location := read_memory c.mmu (0xFE00 + index + 2)
  let attributes := read_memory c.mmu (0xFE00 + index + 3)
  let y_flip := decide (0 < attributes &&& 64)
  let x_flip := decide (0 < attributes &&& 32)
  let sprite_height := if is_8_by_16 = true then 16 else 8
  let current_scanline := read_memory c.mmu 0xFF44
  if y_pos ≤ current_scanline ∧ current_scanline < (y_pos + sprite_height) % 256 then
    let line := toI8 ((current_scanline + 256 - y_pos) % 256)
    let line := if y_flip = true then wrapI8 (wrapI8 (line - sprite_height) * (-1)) else line
    let line := wrapI8 (line * 2)
    let tile_data_address := (0x8000 + (tile_location * 16) % 256 + toU16 line) % 65536
    let data_1 := read_memory c.mmu tile_data_address
    let data_2 := read_memory c.mmu ((tile_data_address + 1) % 65536)
    (intRangeInclusive 7 0).foldl
      (render_sprites_pixel c x_flip data_1 data_2 x_pos current_scanline) screen
  else screen

/-- Embeds `Cpu::render_sprites`: iterate the 40 OAM entries. -/
def render_sprites (c : Cpu) (lcd_control : Nat) : Cpu :=
  let is_8_by_16 := decide (0 < lcd_control &&& 4)
  let screen := (List.range 40).foldl (render_sprites_sprite c is_8_by_16) c.screen_data
  { c with screen_data := screen }

/-- Embeds `Cpu::draw_scanline`: render tiles when LCD-control bit 0 is set, then
sprites when bit 1 is set. -/
def draw_scanline (c : Cpu) : Cpu :=
  let lcd_control := read_memory c.mmu 0xFF40
  let c := if 0 < lcd_control &&& 1 then render_tiles c lcd_control else c
  if 0 < lcd_control &&& 2 then render_sprites c lcd_control else c

/-- Power-on state with V-Blank (bit 0) and Timer (bit 2) both requested
(0xFF0F = 5) and both enabled (0xFFFF = 5), built through `write_memory`. -/
def interruptTestState : Cpu :=
  { cpuInit with mmu := write_memory (write_memory mmuInit 0xFF0F 5) 0xFFFF 5 }

/-- Power-on memory with a marker byte 0xAB at 0x1200 (the DMA source page
that writing 0x12 to 0xFF46 should select). -/
def dmaTestMmu : Mmu :=
  { mmuInit with memory := setMem mmuInit.memory 0x1200 0xAB }

/-- Power-on state whose active scanline register 0xFF44 holds 150 (an
off-screen row). -/
def offscreenRowState : Cpu :=
  { cpuInit with mmu := { mmuInit with memory := setMem mmuInit.memory 0xFF44 150 } }

/-- Power-on state (LCD enabled, scanline 0) with 79 cycles of the
scanline budget consumed (`scanline_counter = 456 - 79 = 377`). -/
def lcdModeTestState : Cpu :=
  { cpuInit with scanline_counter := 377 }

/-! ## Helper lemmas -/

/-- A property preserved by every fold step holds of the fold. -/
theorem foldl_preserve {α β : Type} (P : α → Prop) (f : α → β → α)
    (hf : ∀ a b, P a → P (f a b)) :
    ∀ (l : List β) (a : α), P a → P (l.foldl f a) := by
  intro l
  induction l with
  | nil => intro a h; exact h
  | cons x xs ih => intro a h; exact ih _ (hf _ _ h)

/-- Folding a step that never changes the accumulator is the identity. -/
theorem foldl_id {α β : Type} (f : α → β → α) (hf : ∀ a b, f a b = a) :
    ∀ (l : List β) (a : α), l.foldl f a = a := by
  intro l
  induction l with
  | nil => intro a; rfl
  | cons x xs ih => intro a; rw [List.foldl_cons, hf]; exact ih a

/-- Reading a stored cell. -/
theorem setMem_eq (f : Nat → Nat) (a v : Nat) : setMem f a v a = v := by
  simp [setMem]

/-- Reading any other cell. -/
theorem setMem_ne (f : Nat → Nat) (a v x : Nat) (h : x ≠ a) : setMem f a v x = f x := by
  simp [setMem, h]

/-- The write dispatch does not consult its DMA handler except at the
DMA-trigger address, so the 160 OAM stores of `do_dma_transer` (addresses
`0xFE00..=0xFE9F`) behave identically under `write_memory` and under the
tied-off dispatch used inside `do_dma_transer`. -/
theorem write_dispatch_dma_irrelevant (f g : Mmu → Nat → Mmu) (m : Mmu)
    (address data : Nat) (h : address ≠ 0xFF46) :
    write_dispatch f m address data = write_dispatch g m address data := by
  unfold write_dispatch
  repeat' split
  all_goals rfl

/-! ## Claim theorems -/

/-- C10: a write to 0xFDFF (last echo-region byte) is stored directly at
0xFDFF without being mirrored to work RAM, and a write to 0xFEFF (last
restricted-region byte) is stored directly rather than rejected, because
both range guards in `write_memory` use exclusive upper bounds. -/
theorem boundary_bytes_stored_directly :
    ∀ (m : Mmu) (b : Nat),
      (write_memory m 0xFDFF b).memory = setMem m.memory 0xFDFF b ∧
      (write_memory m 0xFEFF b).memory = setMem m.memory 0xFEFF b :=
  fun _ _ => ⟨rfl, rfl⟩

/-- C1 (code bug evidence): from power-on with V-Blank and Timer both
requested and enabled (0xFF0F = 0xFFFF = 0b101) and the master flag set,
one `do_interrupts` call services *both* kinds: the program counter ends
at the Timer vector 0x50 (not the V-Blank vector 0x40) and both request
bits are cleared, because the loop neither re-checks the master-enable
flag that `service_interrupt` just cleared nor re-reads the request
register. -/
theorem do_interrupts_services_all_pending :
    (do_interrupts interruptTestState).program_counter = 0x50 ∧
    (do_interrupts interruptTestState).mmu.memory 0xFF0F = 0 ∧
    (do_interrupts interruptTestState).interrupt_master = false := by
  decide

/-- C8 (code bug evidence): with the LCD enabled, active scanline 0 and
79 cycles of the 456-cycle budget consumed (`scanline_counter = 377`,
still within the first 80 cycles), `set_lcd_status` records mode 3, not
mode 2, because the source computes the mode-2 boundary as `458 - 80`
instead of `456 - 80`. -/
theorem lcd_mode_three_within_first_80_cycles :
    ((set_lcd_status lcdModeTestState).mmu.memory 0xFF41) &&& 3 = 3 ∧
    is_lcd_enabled lcdModeTestState = true ∧
    read_memory lcdModeTestState.mmu 0xFF44 = 0 ∧
    456 - lcdModeTestState.scanline_counter < 80 := by
  decide

/-- C2 (counterexample): six 100-cycle `update_timers` calls leave the
divider register at 2, while a single 600-cycle call leaves it at 1, so
chunking is not equivalent; and a single 255-cycle call already leaves it
at 1, so the increment is not "once per 256 accumulated cycles". -/
theorem divider_chunking_counterexample :
    (([100, 100, 100, 100, 100, 100] : List Nat).foldl update_timers cpuInit).mmu.memory 0xFF04 = 2 ∧
    (([600] : List Nat).foldl update_timers cpuInit).mmu.memory 0xFF04 = 1 ∧
    (([255] : List Nat).foldl update_timers cpuInit).mmu.memory 0xFF04 = 1 := by
  decide

/-- C3 (counterexample): writing byte 1 at work-RAM address 0xC000 from
power-on is not mirrored into the echo region: reading 0xE000 afterwards
still yields 0, not 1. -/
theorem wram_write_not_mirrored_to_echo :
    ¬ read_memory (write_memory mmuInit 0xC000 1) 0xE000 = 1 := by
  decide

set_option maxRecDepth 100000 in
/-- C4 (code bug evidence): writing 0x12 to the DMA trigger 0xFF46 copies
from source page 0x0000, not 0x1200: the first OAM byte 0xFE00 receives
`memory[0x0000] = 0`, not the marker `memory[0x1200] = 0xAB`, because
`data.checked_shl(8)` on a `u8` is always `None` and `unwrap_or(0)` turns
the source address into 0. -/
theorem dma_copies_from_page_zero :
    (write_memory dmaTestMmu 0xFF46 0x12).memory 0xFE00 = 0 ∧
    dmaTestMmu.memory 0x1200 = 0xAB ∧
    dmaTestMmu.memory 0x0000 = 0 := by
  decide

/-- One OAM-loop step of `render_sprites` never changes the screen buffer:
its per-pixel loop is the Rust range `7..=0`, which is empty. -/
theorem render_sprites_sprite_eq (c : Cpu) (h : Bool) (screen : Nat → Nat) (sprite : Nat) :
    render_sprites_sprite c h screen sprite = screen := by
  simp only [render_sprites_sprite]
  repeat' split
  all_goals rfl

/-- The function `render_sprites` is the identity on the whole CPU state. -/
theorem render_sprites_eq_self (c : Cpu) (lcd_control : Nat) :
    render_sprites c lcd_control = c := by
  simp only [render_sprites]
  rw [foldl_id _ (render_sprites_sprite_eq c _)]

/-- One pixel-loop step of `render_tiles` leaves every buffer cell at or
beyond the buffer length `160*144*3 = 69120` unchanged (the three store
indices are `u8` values below 256). -/
theorem render_tiles_pixel_oob (c : Cpu) (uw un : Bool)
    (sx wx yp td bg tr : Nat) (screen : Nat → Nat) (pixel i : Nat)
    (hi : 69120 ≤ i) :
    render_tiles_pixel c uw un sx wx yp td bg tr screen pixel i = screen i := by
  unfold render_tiles_pixel
  split
  · rfl
  · rw [setMem_ne _ _ _ _ (by omega), setMem_ne _ _ _ _ (by omega),
      setMem_ne _ _ _ _ (by omega)]

/-- One pixel-loop step of `render_tiles` is the identity whenever the
active scanline register holds a row index beyond 143 (the bounds guard
skips the stores). -/
theorem render_tiles_pixel_skip (c : Cpu) (uw un : Bool)
    (sx wx yp td bg tr : Nat) (screen : Nat → Nat) (pixel : Nat)
    (hrow : 143 < read_memory c.mmu 0xFF44) :
    render_tiles_pixel c uw un sx wx yp td bg tr screen pixel = screen := by
  unfold render_tiles_pixel
  rw [if_pos (Or.inr (Or.inl hrow))]

/-- C5: scanline rendering never writes outside the 69120-byte pixel
buffer (cells at or past the length are untouched), and when the computed
row is off screen (scanline register beyond 143) the buffer is left
entirely unchanged by both tile and sprite rendering. -/
theorem render_writes_stay_in_bounds (c : Cpu) (lcd_control i : Nat) :
    (69120 ≤ i →
      (render_tiles c lcd_control).screen_data i = c.screen_data i ∧
      (render_sprites c lcd_control).screen_data i = c.screen_data i) ∧
    (143 < read_memory c.mmu 0xFF44 →
      (render_tiles c lcd_control).screen_data i = c.screen_data i ∧
      (render_sprites c lcd_control).screen_data i = c.screen_data i) := by
  have hs : (render_sprites c lcd_control).screen_data i = c.screen_data i := by
    rw [render_sprites_eq_self]
  constructor
  · intro hi
    refine ⟨?_, hs⟩
    simp only [render_tiles]
    refine foldl_preserve (fun s : Nat → Nat => s i = c.screen_data i) _ ?_ _ _ rfl
    intro s b hb
    exact (render_tiles_pixel_oob _ _ _ _ _ _ _ _ _ _ _ _ hi).trans hb
  · intro hrow
    refine ⟨?_, hs⟩
    simp only [render_tiles]
    refine foldl_preserve (fun s : Nat → Nat => s i = c.screen_data i) _ ?_ _ _ rfl
    intro s b hb
    exact (congrFun (render_tiles_pixel_skip _ _ _ _ _ _ _ _ _ _ _ hrow) i).trans hb

/-- C5 witness: at the power-on state with the scanline register set to
row 150 and buffer index 70000, both hypotheses of the bounds theorem are
satisfiable and the buffer cell is untouched by either renderer. -/
theorem render_writes_stay_in_bounds_witness :
    69120 ≤ 70000 ∧ 143 < read_memory offscreenRowState.mmu 0xFF44 ∧
    (render_tiles offscreenRowState 0x91).screen_data 70000 =
      offscreenRowState.screen_data 70000 ∧
    (render_sprites offscreenRowState 0x91).screen_data 70000 =
      offscreenRowState.screen_data 70000 :=
  ⟨by decide, by decide,
    ((render_writes_stay_in_bounds offscreenRowState 0x91 70000).1 (by decide)).1,
    ((render_writes_stay_in_bounds offscreenRowState 0x91 70000).1 (by decide)).2⟩

/-- C7 (code bug evidence): sprite rendering can never change the pixel
buffer — for every state and control byte, `render_sprites` is the
identity, because its Rust pixel loop `for tile_pixel in 7..=0` iterates
zero times. -/
theorem render_sprites_never_writes :
    ∀ (c : Cpu) (lcd_control : Nat), render_sprites c lcd_control = c :=
  fun c lcd_control => render_sprites_eq_self c lcd_control

/-- C6: a write anywhere below 0x8000 changes neither the 64KB backing
array nor the RAM banks — it is reinterpreted as a banking-control write. -/
theorem rom_write_preserves_backing (m : Mmu) (address data : Nat)
    (h : address < 0x8000) :
    (write_memory m address data).memory = m.memory ∧
    (write_memory m address data).ram_banks = m.ram_banks := by
  unfold write_memory write_dispatch
  rw [if_pos h]
  simp only [do_handle_banking, do_enable_ram_banking, do_rom_lo_bank_change,
    do_rom_or_ram_bank_change, do_rom_hi_bank_change, do_ram_bank_change,
    do_change_rom_ram_mode]
  constructor <;> (repeat' split) <;> rfl

/-- C6 witness: a concrete ROM-area write at power-on. -/
theorem rom_write_preserves_backing_witness :
    0x2000 < 0x8000 ∧ (write_memory mmuInit 0x2000 0).memory = mmuInit.memory :=
  ⟨by decide, (rom_write_preserves_backing mmuInit 0x2000 0 (by decide)).1⟩

/-- The banking dispatch never produces ROM bank 0 from a nonzero bank:
each assignment corrects a computed 0 to 1, and the other paths leave the
bank untouched. -/
theorem do_handle_banking_rom_bank_ne_zero (m : Mmu) (address data : Nat)
    (h : m.current_rom_bank ≠ 0) :
    (do_handle_banking m address data).current_rom_bank ≠ 0 := by
  simp only [do_handle_banking, do_enable_ram_banking, do_rom_lo_bank_change,
    do_rom_or_ram_bank_change, do_rom_hi_bank_change, do_ram_bank_change,
    do_change_rom_ram_mode]
  repeat' split
  all_goals simp_all

/-- Timer-controller writes do not touch the ROM bank. -/
theorem do_handle_timer_controller_rom_bank (m : Mmu) (data : Nat) :
    (do_handle_timer_controller m data).current_rom_bank = m.current_rom_bank := by
  simp only [do_handle_timer_controller, set_clock_frequency]
  repeat' split
  all_goals rfl

/-- Any single arm of the write dispatch preserves a nonzero ROM bank,
provided its DMA handler does. -/
theorem write_dispatch_rom_bank_ne_zero (f : Mmu → Nat → Mmu) (m : Mmu)
    (address data : Nat)
    (hf : ∀ (m2 : Mmu) (d2 : Nat), m2.current_rom_bank ≠ 0 →
      (f m2 d2).current_rom_bank ≠ 0)
    (h : m.current_rom_bank ≠ 0) :
    (write_dispatch f m address data).current_rom_bank ≠ 0 := by
  unfold write_dispatch
  repeat' split
  · exact do_handle_banking_rom_bank_ne_zero m address data h
  · unfold do_handle_ram_banks
    split <;> exact h
  · exact h
  · rw [do_handle_timer_controller_rom_bank]; exact h
  · exact h
  · exact hf m data h
  · exact h
  · exact h
  · exact h

/-- The DMA bulk copy preserves a nonzero ROM bank. -/
theorem do_dma_transer_rom_bank_ne_zero (m : Mmu) (data : Nat)
    (h : m.current_rom_bank ≠ 0) :
    (do_dma_transer m data).current_rom_bank ≠ 0 := by
  unfold do_dma_transer do_dma_transer_with
  refine foldl_preserve (fun m2 : Mmu => m2.current_rom_bank ≠ 0) _ ?_ _ _ h
  intro m2 b h2
  exact write_dispatch_rom_bank_ne_zero _ m2 _ _ (fun m3 _ h3 => h3) h2

/-- C9: the MBC2 low-bank path and the high-bank path both correct a
computed ROM bank of 0 to 1, and consequently no `write_memory` call can
ever make the active ROM bank 0 (it starts at 1 in `Mmu::new`). -/
theorem rom_bank_zero_corrected_to_one :
    (∀ (m : Mmu) (data : Nat), m.mbc2 = true → data &&& 0xF = 0 →
      (do_rom_lo_bank_change m data).current_rom_bank = 1) ∧
    (∀ (m : Mmu) (data : Nat),
      (m.current_rom_bank &&& 31) ||| (data &&& 224) = 0 →
      (do_rom_hi_bank_change m data).current_rom_bank = 1) ∧
    (∀ (m : Mmu) (address data : Nat), m.current_rom_bank ≠ 0 →
      (write_memory m address data).current_rom_bank ≠ 0) := by
  refine ⟨?_, ?_, ?_⟩
  · intro m data hm hd
    simp [do_rom_lo_bank_change, hm, hd]
  · intro m data hb
    simp [do_rom_hi_bank_change, hb]
  · intro m address data h
    unfold write_memory
    exact write_dispatch_rom_bank_ne_zero _ m address data
      do_dma_transer_rom_bank_ne_zero h

/-- C9 witness: concrete instances of all three conjuncts — an MBC2
low-bank write of 0x20 (low nibble 0) lands on bank 1, a high-bank write
computing 0 lands on bank 1, and a ROM-area write from power-on (bank 1)
keeps the bank nonzero. -/
theorem rom_bank_zero_corrected_to_one_witness :
    ({ mmuInit with mbc2 := true } : Mmu).mbc2 = true ∧
    (0x20 : Nat) &&& 0xF = 0 ∧
    (do_rom_lo_bank_change { mmuInit with mbc2 := true } 0x20).current_rom_bank = 1 ∧
    (({ mmuInit with current_rom_bank := 32 } : Mmu).current_rom_bank &&& 31) ||| ((0 : Nat) &&& 224) = 0 ∧
    (do_rom_hi_bank_change { mmuInit with current_rom_bank := 32 } 0).current_rom_bank = 1 ∧
    mmuInit.current_rom_bank ≠ 0 ∧
    (write_memory mmuInit 0x2000 0).current_rom_bank ≠ 0 :=
  ⟨rfl, by decide,
    rom_bank_zero_corrected_to_one.1 _ 0x20 rfl (by decide),
    by decide,
    rom_bank_zero_corrected_to_one.2.1 _ 0 (by decide),
    by decide,
    rom_bank_zero_corrected_to_one.2.2 mmuInit 0x2000 0 (by decide)⟩

/-- Writes to 0xFF05 hit the plain-store arm. -/
theorem write_memory_FF05 (m : Mmu) (d : Nat) :
    write_memory m 0xFF05 d = { m with memory := setMem m.memory 0xFF05 d } := rfl

/-- Writes to 0xFF0F hit the plain-store arm. -/
theorem write_memory_FF0F (m : Mmu) (d : Nat) :
    write_memory m 0xFF0F d = { m with memory := setMem m.memory 0xFF0F d } := rfl

/-- Reloading the timer frequency only touches the reload counter. -/
theorem set_clock_frequency_memory (m : Mmu) :
    (set_clock_frequency m).memory = m.memory := by
  simp only [set_clock_frequency]
  repeat' split
  all_goals rfl

/-- The timer half of `update_timers` touches neither the divider register
byte 0xFF04 nor the divider accumulator. -/
theorem update_timers_clock_preserves (c : Cpu) (cycles : Nat) :
    (update_timers_clock c cycles).mmu.memory 0xFF04 = c.mmu.memory 0xFF04 ∧
    (update_timers_clock c cycles).divider_counter = c.divider_counter := by
  simp only [update_timers_clock, request_interrupt, decrease_timer_counter]
  repeat' split
  all_goals simp [write_memory_FF05, write_memory_FF0F, set_clock_frequency_memory, setMem]

/-- C2 (amended): on every `update_timers` call — whether or not the timer
is enabled — the divider accumulator gains the (u16-cast) cycle count, and
as soon as it reaches 255 or more it resets to 0, discarding the excess,
while the visible divider register 0xFF04 increments once (mod 256);
otherwise the register is untouched. -/
theorem update_timers_divider_behavior (c : Cpu) (cycles : Nat) :
    (update_timers c cycles).mmu.memory 0xFF04 =
      (if 255 ≤ (c.divider_counter + cycles % 65536) % 65536
       then (c.mmu.memory 0xFF04 + 1) % 256 else c.mmu.memory 0xFF04) ∧
    (update_timers c cycles).divider_counter =
      (if 255 ≤ (c.divider_counter + cycles % 65536) % 65536
       then 0 else (c.divider_counter + cycles % 65536) % 65536) := by
  have hp := update_timers_clock_preserves (do_divider_register c (cycles % 65536)) cycles
  unfold update_timers
  rw [hp.1, hp.2]
  simp only [do_divider_register, increment_divider_register]
  split
  · exact ⟨by simp [setMem], rfl⟩
  · exact ⟨rfl, rfl⟩

/-- An echo-region write (0xE000 ≤ e < 0xFDFF) resolves to `do_echo_write`. -/
theorem write_memory_echo_arm (m : Mmu) (e b : Nat)
    (h1 : 0xE000 ≤ e) (h2 : e < 0xFDFF) :
    write_memory m e b = do_echo_write m e b := by
  have hrom : ¬(e < 0x8000) := by omega
  have hram : ¬(0xA000 ≤ e ∧ e < 0xC000) := by omega
  have hdiv : ¬(e = 0xFF04) := by omega
  have htac : ¬(e = 0xFF07) := by omega
  have hscn : ¬(e = 0xFF44) := by omega
  have hdma : ¬(e = 0xFF46) := by omega
  have hres : ¬(0xFEA0 ≤ e ∧ e < 0xFEFF) := by omega
  unfold write_memory write_dispatch
  rw [if_neg hrom, if_neg hram, if_neg hdiv, if_neg htac, if_neg hscn,
    if_neg hdma, if_neg hres, if_pos (And.intro h1 h2)]

/-- A work-RAM write (0xC000 ≤ a ≤ 0xDDFF) resolves to the plain store. -/
theorem write_memory_wram_arm (m : Mmu) (a b : Nat)
    (h1 : 0xC000 ≤ a) (h2 : a ≤ 0xDDFF) :
    write_memory m a b = do_write_data m a b := by
  have hrom : ¬(a < 0x8000) := by omega
  have hram : ¬(0xA000 ≤ a ∧ a < 0xC000) := by omega
  have hdiv : ¬(a = 0xFF04) := by omega
  have htac : ¬(a = 0xFF07) := by omega
  have hscn : ¬(a = 0xFF44) := by omega
  have hdma : ¬(a = 0xFF46) := by omega
  have hres : ¬(0xFEA0 ≤ a ∧ a < 0xFEFF) := by omega
  have hech : ¬(0xE000 ≤ a ∧ a < 0xFDFF) := by omega
  unfold write_memory write_dispatch
  rw [if_neg hrom, if_neg hram, if_neg hdiv, if_neg htac, if_neg hscn,
    if_neg hdma, if_neg hres, if_neg hech]

/-- C3 (amended): an echo-region write at `e` (0xE000–0xFDFE) stores the
byte at both `e` and `e - 0x2000`, so reading either returns it; but a
work-RAM write at `a` (0xC000–0xDDFF) is not mirrored — the echo byte at
`a + 0x2000` keeps its previous value. -/
theorem echo_mirror_behavior :
    (∀ (m : Mmu) (e b : Nat), 0xE000 ≤ e → e < 0xFDFF →
      read_memory (write_memory m e b) (e - 0x2000) = b ∧
      read_memory (write_memory m e b) e = b) ∧
    (∀ (m : Mmu) (a b : Nat), 0xC000 ≤ a → a ≤ 0xDDFF →
      (write_memory m a b).memory (a + 0x2000) = m.memory (a + 0x2000)) := by
  constructor
  · intro m e b h1 h2
    rw [write_memory_echo_arm m e b h1 h2]
    simp only [do_echo_write, do_write_data]
    have hne : ¬(e - 0x2000 = e) := by omega
    constructor
    · unfold read_memory
      rw [if_neg (by omega : ¬(e - 0x2000 = 0xFF00)),
        if_neg (by omega : ¬(0x4000 ≤ e - 0x2000 ∧ e - 0x2000 ≤ 0x7FFF)),
        if_neg (by omega : ¬(0xA000 ≤ e - 0x2000 ∧ e - 0x2000 ≤ 0xBFFF))]
      simp [setMem, hne]
    · unfold read_memory
      rw [if_neg (by omega : ¬(e = 0xFF00)),
        if_neg (by omega : ¬(0x4000 ≤ e ∧ e ≤ 0x7FFF)),
        if_neg (by omega : ¬(0xA000 ≤ e ∧ e ≤ 0xBFFF))]
      simp [setMem]
  · intro m a b h1 h2
    rw [write_memory_wram_arm m a b h1 h2]
    simp only [do_write_data]
    have hne : ¬(a + 0x2000 = a) := by omega
    simp [setMem, hne]

/-- C3 witness: concrete instances — an echo write at 0xE000 readable at
both 0xC000 and 0xE000, and a work-RAM write at 0xC000 leaving the echo
byte 0xE000 as it was. -/
theorem echo_mirror_behavior_witness :
    (0xE000 : Nat) ≤ 0xE000 ∧ (0xE000 : Nat) < 0xFDFF ∧
    read_memory (write_memory mmuInit 0xE000 7) 0xC000 = 7 ∧
    read_memory (write_memory mmuInit 0xE000 7) 0xE000 = 7 ∧
    (0xC000 : Nat) ≤ 0xC000 ∧ (0xC000 : Nat) ≤ 0xDDFF ∧
    (write_memory mmuInit 0xC000 9).memory 0xE000 = mmuInit.memory 0xE000 :=
  ⟨by decide, by decide,
    (echo_mirror_behavior.1 mmuInit 0xE000 7 (by decide) (by decide)).1,
    (echo_mirror_behavior.1 mmuInit 0xE000 7 (by decide) (by decide)).2,
    by decide, by decide,
    echo_mirror_behavior.2 mmuInit 0xC000 9 (by decide) (by decide)⟩

end GB
